import Mathlib

/-!
Verification of the Bug Lifecycle & Fault-Isolation Subsystem of a MERN
bug-tracker.  The JavaScript sources are shallowly embedded as Lean
functions:

* `utils/bugUtils.js` (validation & transition rules) over a small model
  of JavaScript runtime values (`JSValue`);
* `server/src/controllers/bugController.js` over an explicit store model
  (MongoDB/mongoose cast, miss and sort behaviour made explicit);
* `client/src/context/BugContext.jsx` as pure state-transition functions
  over the provider state, with React commit/effect semantics made
  explicit where the claims are temporal.
-/

/-- A model of the JavaScript values the validation utilities can receive:
`null`, `undefined`, booleans, (integer) numbers, strings, and a generic
object value.  Objects are modelled opaquely: the utilities only ever test
their truthiness, their `typeof`, and their default property-key coercion
(`"[object Object]"`). -/
inductive JSValue where
  | null
  | undefined
  | boolean (b : Bool)
  | number (n : Int)
  | string (s : String)
  | object
deriving DecidableEq, Repr

/-- JavaScript truthiness: `null`, `undefined`, `false`, `0` and `""` are
falsy; every other modelled value is truthy. -/
def jsTruthy : JSValue → Bool
  | .null => false
  | .undefined => false
  | .boolean b => b
  | .number n => n != 0
  | .string s => s != ""
  | .object => true

/-- `typeof v === 'string'`. -/
def jsIsString : JSValue → Bool
  | .string _ => true
  | _ => false

/-- The underlying string of a string value; `""` otherwise (only read
under a `jsIsString` guard, mirroring the short-circuit in the source). -/
def jsStr : JSValue → String
  | .string s => s
  | _ => ""

/-- Decimal digits of `m` (most significant first), by repeated division;
the first argument is fuel, always called with `fuel ≥ m`. -/
def natKeyAux : Nat → Nat → List Char
  | 0, _ => []
  | fuel + 1, m => if m = 0 then [] else natKeyAux fuel (m / 10) ++ [Nat.digitChar (m % 10)]

/-- The decimal string of a natural number. -/
def natKey (m : Nat) : String :=
  if m = 0 then "0" else ⟨natKeyAux m m⟩

/-- The decimal string of an integer (a JavaScript number's default
string conversion). -/
def intKey : Int → String
  | .ofNat m => natKey m
  | .negSucc m => "-" ++ natKey (m + 1)

/-- JavaScript property-key coercion (`ToPropertyKey`): the key used when a
value indexes an object literal, via its default string conversion. -/
def jsPropertyKey : JSValue → String
  | .null => "null"
  | .undefined => "undefined"
  | .boolean true => "true"
  | .boolean false => "false"
  | .number n => intKey n
  | .string s => s
  | .object => "[object Object]"

/-- `Array.prototype.includes` over an array of string literals: strict
equality, so only a string value can be a member. -/
def jsIncludes (l : List String) : JSValue → Bool
  | .string s => l.contains s
  | _ => false

/-- ECMAScript `String.prototype.trim` on ASCII input: drop whitespace
from both ends. -/
def jsTrim (s : String) : String :=
  ⟨((s.data.dropWhile Char.isWhitespace).reverse.dropWhile Char.isWhitespace).reverse⟩

/-- `const validStatuses = ['open', 'in-progress', 'resolved']`
(bugUtils.js). -/
def validStatuses : List String := ["open", "in-progress", "resolved"]

/-- `const validPriorities = ['low', 'medium', 'high', 'critical']`
(bugUtils.js). -/
def validPriorities : List String := ["low", "medium", "high", "critical"]

/-- The `validTransitions` object literal of `isValidStatusTransition` /
`getValidNextStatuses` (bugUtils.js), as key lookup: `none` models a
`undefined` lookup result. -/
def statusTransitionTable (k : String) : Option (List String) :=
  if k = "open" then some ["in-progress", "resolved"]
  else if k = "in-progress" then some ["open", "resolved"]
  else if k = "resolved" then some ["open", "in-progress"]
  else none

/-- `isValidStatusTransition(currentStatus, newStatus)` (bugUtils.js):
both arguments must be members of `validStatuses`, then the transition
table row of `currentStatus` is consulted
(`validTransitions[currentStatus]?.includes(newStatus) || false`). -/
def isValidStatusTransition (currentStatus newStatus : JSValue) : Bool :=
  if !(jsIncludes validStatuses currentStatus) || !(jsIncludes validStatuses newStatus) then
    false
  else
    match statusTransitionTable (jsPropertyKey currentStatus) with
    | some nexts => jsIncludes nexts newStatus
    | none => false

/-- `getValidNextStatuses(currentStatus)` (bugUtils.js):
`validTransitions[currentStatus] || []`. -/
def getValidNextStatuses (currentStatus : JSValue) : List String :=
  (statusTransitionTable (jsPropertyKey currentStatus)).getD []

/-- The `weights` object literal of `getPriorityWeight` (bugUtils.js). -/
def priorityWeightTable (k : String) : Option Nat :=
  if k = "low" then some 1
  else if k = "medium" then some 2
  else if k = "high" then some 3
  else if k = "critical" then some 4
  else none

/-- `getPriorityWeight(priority)` (bugUtils.js): `weights[priority] || 0`. -/
def getPriorityWeight (priority : JSValue) : Nat :=
  (priorityWeightTable (jsPropertyKey priority)).getD 0

/-- The argument record of `validateBugData`: the five fields the
function reads; a field absent from the caller's object is `undefined`. -/
structure BugData where
  title : JSValue := .undefined
  description : JSValue := .undefined
  reporter : JSValue := .undefined
  status : JSValue := .undefined
  priority : JSValue := .undefined
deriving DecidableEq, Repr

/-- The `{ valid, errors }` result of `validateBugData`. -/
structure ValidationResult where
  valid : Bool
  errors : List String
deriving DecidableEq, Repr

/-- `validateBugData(bugData)` (bugUtils.js), translated block by block:
each `if` pushes at most one message onto `errors`, and
`valid` is `errors.length === 0`. -/
def validateBugData (bugData : BugData) : ValidationResult :=
  let errors : List String := []
  let errors :=
    if !(jsTruthy bugData.title) || !(jsIsString bugData.title)
        || (jsTrim (jsStr bugData.title)).length = 0 then
      errors ++ ["Title is required and must be a non-empty string"]
    else if (jsStr bugData.title).length > 200 then
      errors ++ ["Title cannot exceed 200 characters"]
    else errors
  let errors :=
    if !(jsTruthy bugData.description) || !(jsIsString bugData.description)
        || (jsTrim (jsStr bugData.description)).length = 0 then
      errors ++ ["Description is required and must be a non-empty string"]
    else errors
  let errors :=
    if !(jsTruthy bugData.reporter) || !(jsIsString bugData.reporter)
        || (jsTrim (jsStr bugData.reporter)).length = 0 then
      errors ++ ["Reporter is required and must be a non-empty string"]
    else errors
  let errors :=
    if jsTruthy bugData.status && !(jsIncludes validStatuses bugData.status) then
      errors ++ ["Status must be one of: open, in-progress, resolved"]
    else errors
  let errors :=
    if jsTruthy bugData.priority && !(jsIncludes validPriorities bugData.priority) then
      errors ++ ["Priority must be one of: low, medium, high, critical"]
    else errors
  { valid := errors.isEmpty, errors := errors }

/-- The first error block of `validateBugData`, as a function of the
`title` field alone: at most one title message. -/
def titleCheck (t : JSValue) : Option String :=
  if !(jsTruthy t) || !(jsIsString t) || (jsTrim (jsStr t)).length = 0 then
    some "Title is required and must be a non-empty string"
  else if (jsStr t).length > 200 then
    some "Title cannot exceed 200 characters"
  else none

/-- The `description` block of `validateBugData`, as a function of the
`description` field alone. -/
def descriptionCheck (d : JSValue) : Option String :=
  if !(jsTruthy d) || !(jsIsString d) || (jsTrim (jsStr d)).length = 0 then
    some "Description is required and must be a non-empty string"
  else none

/-- The `reporter` block of `validateBugData`, as a function of the
`reporter` field alone. -/
def reporterCheck (r : JSValue) : Option String :=
  if !(jsTruthy r) || !(jsIsString r) || (jsTrim (jsStr r)).length = 0 then
    some "Reporter is required and must be a non-empty string"
  else none

/-- The `status` block of `validateBugData`, as a function of the
`status` field alone: a falsy (absent) status produces no message. -/
def statusCheck (s : JSValue) : Option String :=
  if jsTruthy s && !(jsIncludes validStatuses s) then
    some "Status must be one of: open, in-progress, resolved"
  else none

/-- The `priority` block of `validateBugData`, as a function of the
`priority` field alone: a falsy (absent) priority produces no message. -/
def priorityCheck (p : JSValue) : Option String :=
  if jsTruthy p && !(jsIncludes validPriorities p) then
    some "Priority must be one of: low, medium, high, critical"
  else none

/-- The argument actually passed to `validateBugData` at a JavaScript call
site: `null`, `undefined`, a non-object primitive (whose property reads all
yield `undefined`), or an object carrying the five relevant fields. -/
inductive JsArg where
  | value (v : JSValue)
  | obj (d : BugData)
deriving DecidableEq, Repr

/-- `validateBugData` at the JavaScript call level: reading `.title` of
`null` or `undefined` throws a `TypeError`; a primitive argument is boxed,
so all its fields read as `undefined`; an object supplies its fields. -/
def jsValidateBugData : JsArg → Except String ValidationResult
  | .value .null => .error "TypeError: Cannot read properties of null (reading 'title')"
  | .value .undefined => .error "TypeError: Cannot read properties of undefined (reading 'title')"
  | .value _ => .ok (validateBugData {})
  | .obj d => .ok (validateBugData d)

/-- `isValidStatusTransition` at the JavaScript call level: its body
performs no operation that can throw (it only reads properties of its own
local literals), so every call returns normally. -/
def jsIsValidStatusTransition (a b : JSValue) : Except String Bool :=
  .ok (isValidStatusTransition a b)

/-- `getPriorityWeight` at the JavaScript call level: its body performs no
operation that can throw, so every call returns normally. -/
def jsGetPriorityWeight (p : JSValue) : Except String Nat :=
  .ok (getPriorityWeight p)

/-- A persisted bug record (`Bug` mongoose model): `_id`, the five data
fields, and the two `timestamps: true` fields as abstract instants. -/
structure Bug where
  id : String
  title : String
  description : String
  reporter : String
  status : String
  priority : String
  createdAt : Nat
  updatedAt : Nat
deriving DecidableEq, Repr

/-- A MongoDB `ObjectId`-castable identifier: a 24-character hex string
(the cast mongoose applies before touching the collection). -/
def isValidObjectId (id : String) : Bool :=
  id.length == 24 && id.data.all fun c =>
    c.isDigit || ('a' ≤ c && c ≤ 'f') || ('A' ≤ c && c ≤ 'F')

/-- The raw mongoose driver message raised by a failed `ObjectId` cast. -/
def castErrorMessage (id : String) : String :=
  "Cast to ObjectId failed for value \"" ++ id ++ "\" (type string) at path \"_id\" for model \"Bug\""

/-- Outcome of a mongoose call as observed by the controller's
`try`/`catch`: a value, a `CastError`, a `ValidationError`, or any other
driver error (forwarded to `next(error)`). -/
inductive DbResult (α : Type) where
  | ok (a : α)
  | castError (msg : String)
  | validationError (msgs : List String)
  | dbError (msg : String)
deriving DecidableEq, Repr

/-- `Bug.findById(id)` over a store modelled as a list of records: a
malformed identifier throws `CastError` before the collection is
consulted; otherwise the record with that `_id`, if any. -/
def findById (store : List Bug) (id : String) : DbResult (Option Bug) :=
  if isValidObjectId id then .ok (store.find? fun b => b.id == id)
  else .castError (castErrorMessage id)

/-- `Bug.findByIdAndUpdate(id, body, {new: true, runValidators: true})`:
cast check first, then lookup, then the update-and-validate step
(`applyUpd`, kept abstract: schema validation belongs to mongoose). -/
def findByIdAndUpdate (store : List Bug) (id : String)
    (applyUpd : Bug → Except (List String) Bug) : DbResult (Option Bug) :=
  if !(isValidObjectId id) then .castError (castErrorMessage id)
  else
    match store.find? (fun b => b.id == id) with
    | none => .ok none
    | some b =>
      match applyUpd b with
      | .ok b' => .ok (some b')
      | .error msgs => .validationError msgs

/-- An HTTP response envelope as produced by `bugController.js`. -/
structure ApiResponse where
  status : Nat
  success : Bool
  error : Option String := none
  data : Option Bug := none
deriving DecidableEq, Repr

/-- The `404 { success: false, error: 'Bug not found' }` response used by
the controller for both an adapter miss and a caught `CastError`. -/
def bugNotFoundResponse : ApiResponse :=
  { status := 404, success := false, error := some "Bug not found" }

/-- `getBug` (bugController.js): find by id; `null` result or a caught
`CastError` becomes the 404 not-found response; any other error goes to
`next(error)` (modelled as a 500 with the raw message). -/
def getBug (store : List Bug) (id : String) : ApiResponse :=
  match findById store id with
  | .ok none => bugNotFoundResponse
  | .ok (some b) => { status := 200, success := true, data := some b }
  | .castError _ => bugNotFoundResponse
  | .validationError msgs => { status := 500, success := false, error := some (String.intercalate ", " msgs) }
  | .dbError m => { status := 500, success := false, error := some m }

/-- `updateBug` (bugController.js): `findByIdAndUpdate`; `null` becomes
404, a caught `ValidationError` becomes 400 with the joined messages, a
caught `CastError` becomes the same 404 not-found response. -/
def updateBug (store : List Bug) (id : String)
    (applyUpd : Bug → Except (List String) Bug) : ApiResponse :=
  match findByIdAndUpdate store id applyUpd with
  | .ok none => bugNotFoundResponse
  | .ok (some b) => { status := 200, success := true, data := some b }
  | .validationError msgs =>
      { status := 400, success := false, error := some (String.intercalate ", " msgs) }
  | .castError _ => bugNotFoundResponse
  | .dbError m => { status := 500, success := false, error := some m }

/-- Insert a record into a list already sorted by `le` (meaning: the first
argument may come no later than the second), keeping the order. -/
def insertSortedBy (le : Bug → Bug → Bool) (x : Bug) : List Bug → List Bug
  | [] => [x]
  | y :: ys => if le x y then x :: y :: ys else y :: insertSortedBy le x ys

/-- Insertion sort by the given order test (the store's sort primitive). -/
def sortRecordsBy (le : Bug → Bug → Bool) : List Bug → List Bug
  | [] => []
  | x :: xs => insertSortedBy le x (sortRecordsBy le xs)

/-- Lexicographic order on character codes (MongoDB's comparison of two
ASCII strings is byte order, which coincides with code-point order). -/
def lexLt : List Char → List Char → Bool
  | [], [] => false
  | [], _ :: _ => true
  | _ :: _, [] => false
  | a :: as, b :: bs =>
    if a.toNat < b.toNat then true
    else if b.toNat < a.toNat then false
    else lexLt as bs

/-- Lexicographic string order, on the underlying characters. -/
def strLexLt (a b : String) : Bool := lexLt a.data b.data

/-- MongoDB sort by `-priority`: descending by the raw `priority`
*string*, compared lexicographically. -/
def mongoSortPriorityDesc (l : List Bug) : List Bug :=
  sortRecordsBy (fun a b => !(strLexLt a.priority b.priority)) l

/-- MongoDB sort by `createdAt` ascending. -/
def mongoSortCreatedAsc (l : List Bug) : List Bug :=
  sortRecordsBy (fun a b => decide (a.createdAt ≤ b.createdAt)) l

/-- MongoDB sort by `-createdAt` (descending). -/
def mongoSortCreatedDesc (l : List Bug) : List Bug :=
  sortRecordsBy (fun a b => decide (b.createdAt ≤ a.createdAt)) l

/-- The response envelope of the list endpoint. -/
structure ListResponse where
  status : Nat
  success : Bool
  count : Nat
  data : List Bug
deriving DecidableEq, Repr

/-- `getBugs` (bugController.js): equality filters are added to the query
only for truthy (non-empty) `status`/`priority` parameters; the sort key
is `-createdAt` by default, `createdAt` for `sort=oldest`, and
`-priority` for `sort=priority`. -/
def getBugs (store : List Bug) (qstatus qpriority qsort : Option String) : ListResponse :=
  let query := store.filter fun b =>
    (match qstatus with
     | some s => if s = "" then true else b.status == s
     | none => true)
    && (match qpriority with
        | some p => if p = "" then true else b.priority == p
        | none => true)
  let sorted :=
    if qsort == some "oldest" then mongoSortCreatedAsc query
    else if qsort == some "priority" then mongoSortPriorityDesc query
    else mongoSortCreatedDesc query
  { status := 200, success := true, count := sorted.length, data := sorted }

/-- A list of records is ordered by non-increasing priority weight. -/
def weightNonIncreasing : List Bug → Bool
  | [] => true
  | [_] => true
  | a :: b :: rest =>
    decide (getPriorityWeight (.string b.priority) ≤ getPriorityWeight (.string a.priority))
      && weightNonIncreasing (b :: rest)

/-- A network operation issued by the client orchestration layer
(`bugService` call). -/
inductive NetOp where
  | create (d : BugData)
  | update (id : String) (d : BugData)
  | delete (id : String)
deriving DecidableEq, Repr

/-- The synchronous start of a mutating call in `BugContext.jsx`: either
an error thrown before any request is issued, or the network request the
call proceeds to issue. -/
inductive CallStart where
  | throwError (msg : String)
  | request (op : NetOp)
deriving DecidableEq, Repr

/-- `createBug` in `BugContext.jsx`, synchronous prefix: when `loading` is
set (another call is in flight) it throws `'Request already in progress'`
before `addBug` is called; otherwise it issues the create request. -/
def createBugStart (loading : Bool) (d : BugData) : CallStart :=
  if loading then .throwError "Request already in progress"
  else .request (.create d)

/-- `updateBug` in `BugContext.jsx`, synchronous prefix: it performs no
in-flight check and always issues the update request (the `loading`
argument records the flag it could have consulted but does not). -/
def updateBugStart (_loading : Bool) (id : String) (d : BugData) : CallStart :=
  .request (.update id d)

/-- `deleteBug` in `BugContext.jsx`, synchronous prefix: it performs no
in-flight check and always issues the delete request. -/
def deleteBugStart (_loading : Bool) (id : String) : CallStart :=
  .request (.delete id)

/-- The `setBugs` updater run on `createBug` success in `BugContext.jsx`:
skip the insert when a record with the created record's `_id` is already
in the local collection, else prepend it. -/
def addBugToState (newBug : Bug) (prevBugs : List Bug) : List Bug :=
  match prevBugs.find? (fun b => b.id == newBug.id) with
  | some _ => prevBugs
  | none => newBug :: prevBugs

/-- Number of records in the local collection with the given `_id`. -/
def countById (l : List Bug) (id : String) : Nat :=
  (l.filter fun b => b.id == id).length

/-- The active filter/sort selection held by the provider (the query
parameters later passed to `getBugs`). -/
structure Filters where
  status : Option String := none
  priority : Option String := none
  sort : Option String := none
deriving DecidableEq, Repr

/-- `BugProvider` state: the local collection, the `loading` flag, the
outstanding error, the filters, and a version number modelling the
referential identity of the `filters` object (`useState` stores a fresh
object on every `setFilters`, which is what the `useCallback`
dependency comparison observes). -/
structure ProviderState where
  bugs : List Bug := []
  loading : Bool := false
  error : Option String := none
  filters : Filters := {}
  filtersVer : Nat := 0
deriving DecidableEq, Repr

/-- A state update enqueued during one React batch: `updateFilters`
(which calls `setFilters` with a fresh object), or the completion of a
`loadBugs` call (which only touches `bugs`/`loading`/`error`). -/
inductive StateUpdate where
  | setFilters (f : Filters)
  | reloadSuccess (data : List Bug)
  | reloadFailure (msg : String)
deriving DecidableEq, Repr

/-- Apply one enqueued state update, as written in `BugContext.jsx`. -/
def applyStateUpdate (s : ProviderState) : StateUpdate → ProviderState
  | .setFilters f => { s with filters := f, filtersVer := s.filtersVer + 1 }
  | .reloadSuccess data => { s with bugs := data, loading := false, error := none }
  | .reloadFailure m => { s with loading := false, error := some m }

/-- One React commit: fold the batched updates into the state, then run
the effect pass.  `loadBugs` is a `useCallback` with dependency
`[filters]` and the reload effect is a `useEffect` with dependency
`[loadBugs]`, so the effect re-runs exactly when the identity of the
`filters` object changed during the commit; each effect run issues one
`loadBugs()` reading the now-current filters.  Returns the new state and
the list of reloads issued by this commit. -/
def commit (updates : List StateUpdate) (s : ProviderState) : ProviderState × List Filters :=
  let s' := updates.foldl applyStateUpdate s
  (s', if s'.filtersVer ≠ s.filtersVer then [s'.filters] else [])

/-- The initial mount commit: the `useEffect` always runs on mount, so
exactly one initial `loadBugs()` is issued. -/
def mountCommit (s : ProviderState) : ProviderState × List Filters :=
  (s, [s.filters])

/-- A title of 201 characters whose trimmed form has only 196: raw length
above the limit, trimmed length below it. -/
def paddedTitle : String := ⟨List.replicate 5 ' ' ++ List.replicate 196 'a'⟩

/-- A title of 201 `a`s (no surrounding whitespace). -/
def longTitle : String := ⟨List.replicate 201 'a'⟩

/-- A candidate record with a short, valid title. -/
def shortTitleData : BugData :=
  { title := .string "abc", description := .string "d", reporter := .string "r" }

/-- A candidate record with the 201-character title. -/
def longTitleData : BugData :=
  { title := .string longTitle, description := .string "d", reporter := .string "r" }

/-- A stored record with priority `low`. -/
def lowBug : Bug :=
  ⟨"64a000000000000000000001", "t1", "d1", "r1", "open", "low", 1, 1⟩

/-- A stored record with priority `critical`. -/
def criticalBug : Bug :=
  ⟨"64a000000000000000000002", "t2", "d2", "r2", "open", "critical", 2, 2⟩

/-- Every character produced by `natKeyAux` is a decimal digit. -/
theorem mem_natKeyAux_isDigit : ∀ (fuel m : Nat), ∀ c ∈ natKeyAux fuel m, c.isDigit = true := by
  intro fuel
  induction fuel with
  | zero => intro m c hc; simp [natKeyAux] at hc
  | succ f ih =>
    intro m c hc
    simp only [natKeyAux] at hc
    split at hc
    · simp at hc
    · rcases List.mem_append.mp hc with h | h
      · exact ih _ _ h
      · simp at h
        subst h
        have h10 : m % 10 < 10 := Nat.mod_lt _ (by norm_num)
        interval_cases h : m % 10 <;> decide

/-- Every character of a number's property key is a digit or `'-'`. -/
theorem mem_intKey_digitOrDash : ∀ (n : Int), ∀ c ∈ (intKey n).data, c.isDigit = true ∨ c = '-' := by
  have hnat : ∀ (m : Nat), ∀ c ∈ (natKey m).data, c.isDigit = true := by
    intro m c hc
    simp only [natKey] at hc
    split at hc
    · simp at hc; subst hc; decide
    · exact mem_natKeyAux_isDigit _ _ _ hc
  intro n c hc
  cases n with
  | ofNat m => exact Or.inl (hnat m c hc)
  | negSucc m =>
    simp only [intKey, String.data_append] at hc
    rcases List.mem_append.mp hc with h | h
    · right; simpa using h
    · exact Or.inl (hnat _ c h)

/-- A number's property key never equals a string whose first character is
neither a digit nor `'-'`. -/
theorem intKey_ne_of_head (n : Int) (c : Char) (cs : List Char)
    (hc : c.isDigit = false) (hdash : c ≠ '-') : intKey n ≠ ⟨c :: cs⟩ := by
  intro h
  have hm : c ∈ (intKey n).data := by rw [h]; exact List.mem_cons_self _ _
  rcases mem_intKey_digitOrDash n c hm with hd | hd
  · rw [hd] at hc; cases hc
  · exact hdash hd

/-- A number key misses every row of the transition table. -/
theorem statusTransitionTable_intKey (n : Int) : statusTransitionTable (intKey n) = none := by
  have h1 : intKey n ≠ "open" := intKey_ne_of_head n 'o' ['p', 'e', 'n'] (by decide) (by decide)
  have h2 : intKey n ≠ "in-progress" :=
    intKey_ne_of_head n 'i' ['n', '-', 'p', 'r', 'o', 'g', 'r', 'e', 's', 's'] (by decide)
      (by decide)
  have h3 : intKey n ≠ "resolved" :=
    intKey_ne_of_head n 'r' ['e', 's', 'o', 'l', 'v', 'e', 'd'] (by decide) (by decide)
  simp [statusTransitionTable, h1, h2, h3]

/-- A number key misses every row of the weight table. -/
theorem priorityWeightTable_intKey (n : Int) : priorityWeightTable (intKey n) = none := by
  have h1 : intKey n ≠ "low" := intKey_ne_of_head n 'l' ['o', 'w'] (by decide) (by decide)
  have h2 : intKey n ≠ "medium" :=
    intKey_ne_of_head n 'm' ['e', 'd', 'i', 'u', 'm'] (by decide) (by decide)
  have h3 : intKey n ≠ "high" := intKey_ne_of_head n 'h' ['i', 'g', 'h'] (by decide) (by decide)
  have h4 : intKey n ≠ "critical" :=
    intKey_ne_of_head n 'c' ['r', 'i', 't', 'i', 'c', 'a', 'l'] (by decide) (by decide)
  simp [priorityWeightTable, h1, h2, h3, h4]

/-- A string outside the status enumeration misses the transition table. -/
theorem statusTable_none_of_not_contains (s : String) (h : validStatuses.contains s = false) :
    statusTransitionTable s = none := by
  simp [validStatuses] at h
  simp [statusTransitionTable, h.1, h.2.1, h.2.2]

/-- A string outside the priority enumeration misses the weight table. -/
theorem priorityTable_none_of_not_contains (s : String) (h : validPriorities.contains s = false) :
    priorityWeightTable s = none := by
  simp [validPriorities] at h
  simp [priorityWeightTable, h.1, h.2.1, h.2.2.1, h.2.2.2]

/-- The error list of `validateBugData` is exactly the concatenation of
the five per-field checks, in source order. -/
theorem validateBugData_errors_decomp (d : BugData) :
    (validateBugData d).errors
      = (titleCheck d.title).toList ++ (descriptionCheck d.description).toList
        ++ (reporterCheck d.reporter).toList ++ (statusCheck d.status).toList
        ++ (priorityCheck d.priority).toList := by
  simp only [validateBugData, titleCheck, descriptionCheck, reporterCheck, statusCheck,
    priorityCheck]
  split_ifs <;> simp

/-- `valid` is emptiness of the error list. -/
theorem validateBugData_valid_eq (d : BugData) :
    (validateBugData d).valid = (validateBugData d).errors.isEmpty := by
  simp only [validateBugData]

/-- The description check produces nothing or its one fixed message. -/
theorem descriptionCheck_eq (v : JSValue) :
    descriptionCheck v = none
      ∨ descriptionCheck v = some "Description is required and must be a non-empty string" := by
  unfold descriptionCheck; split <;> simp

/-- The reporter check produces nothing or its one fixed message. -/
theorem reporterCheck_eq (v : JSValue) :
    reporterCheck v = none
      ∨ reporterCheck v = some "Reporter is required and must be a non-empty string" := by
  unfold reporterCheck; split <;> simp

/-- The status check produces nothing or its one fixed message. -/
theorem statusCheck_eq (v : JSValue) :
    statusCheck v = none
      ∨ statusCheck v = some "Status must be one of: open, in-progress, resolved" := by
  unfold statusCheck; split <;> simp

/-- The priority check produces nothing or its one fixed message. -/
theorem priorityCheck_eq (v : JSValue) :
    priorityCheck v = none
      ∨ priorityCheck v = some "Priority must be one of: low, medium, high, critical" := by
  unfold priorityCheck; split <;> simp

/-- A title message occurs in the error list exactly when the title check
produced it (the other four checks never produce a title message). -/
theorem titleMsg_mem_iff (d : BugData) (m : String)
    (ht : m = "Title is required and must be a non-empty string"
      ∨ m = "Title cannot exceed 200 characters") :
    m ∈ (validateBugData d).errors ↔ titleCheck d.title = some m := by
  rw [validateBugData_errors_decomp]
  constructor
  · intro hm
    rcases List.mem_append.mp hm with hm | hm
    rcases List.mem_append.mp hm with hm | hm
    rcases List.mem_append.mp hm with hm | hm
    rcases List.mem_append.mp hm with hm | hm
    · simpa using hm
    · rcases descriptionCheck_eq d.description with h | h <;> rw [h] at hm <;> simp at hm
      subst hm; rcases ht with h | h <;> simp at h
    · rcases reporterCheck_eq d.reporter with h | h <;> rw [h] at hm <;> simp at hm
      subst hm; rcases ht with h | h <;> simp at h
    · rcases statusCheck_eq d.status with h | h <;> rw [h] at hm <;> simp at hm
      subst hm; rcases ht with h | h <;> simp at h
    · rcases priorityCheck_eq d.priority with h | h <;> rw [h] at hm <;> simp at hm
      subst hm; rcases ht with h | h <;> simp at h
  · intro h
    refine List.mem_append.mpr (Or.inl ?_)
    refine List.mem_append.mpr (Or.inl ?_)
    refine List.mem_append.mpr (Or.inl ?_)
    refine List.mem_append.mpr (Or.inl ?_)
    simp [h]

/-- A string is non-empty exactly when its character list is. -/
theorem string_ne_empty_iff (s : String) : s ≠ "" ↔ s.data ≠ [] := by
  constructor
  · intro h hd; exact h (by cases s; simp_all)
  · intro h hd; subst hd; exact h rfl

/-- The controller's not-found text is never the raw driver cast message. -/
theorem bugNotFound_ne_cast (id : String) :
    some "Bug not found" ≠ some (castErrorMessage id) := by
  intro h
  have h' : "Bug not found" = castErrorMessage id := by injection h
  have h1 : ("Bug not found").data.head? = (castErrorMessage id).data.head? := by rw [h']
  obtain ⟨l⟩ := id
  simp [castErrorMessage] at h1

/-- Claim C1, counterexample: with a call outstanding (`loading = true`),
`updateBug` and `deleteBug` do not fail fast with the
"Request already in progress" error; each immediately issues its network
request, contradicting the claim that every mutating call is guarded. -/
theorem mutatingCall_no_guard_counterexample :
    deleteBugStart true "64a000000000000000000001" ≠ .throwError "Request already in progress"
  ∧ deleteBugStart true "64a000000000000000000001" = .request (.delete "64a000000000000000000001")
  ∧ updateBugStart true "64a000000000000000000001" {} ≠ .throwError "Request already in progress"
  ∧ updateBugStart true "64a000000000000000000001" {}
      = .request (.update "64a000000000000000000001" {}) := by decide

/-- Claim C1, amended: only `createBug` has the in-flight guard — issued
while a call is outstanding it throws "Request already in progress"
without issuing a network request, and otherwise issues the create
request; `updateBug` and `deleteBug` always issue their request,
regardless of an outstanding call. -/
theorem inflight_guard_create_only (loading : Bool) (d : BugData) (id : String) :
    (loading = true → createBugStart loading d = .throwError "Request already in progress")
  ∧ (loading = false → createBugStart loading d = .request (.create d))
  ∧ updateBugStart loading id d = .request (.update id d)
  ∧ deleteBugStart loading id = .request (.delete id) := by
  refine ⟨?_, ?_, rfl, rfl⟩ <;> intro h <;> subst h <;> rfl

/-- Witness for C1's amended theorem at concrete inputs. -/
theorem inflight_guard_create_only_witness :
    createBugStart true {} = .throwError "Request already in progress"
  ∧ createBugStart false {} = .request (.create {}) :=
  ⟨(inflight_guard_create_only true {} "x").1 rfl,
   (inflight_guard_create_only false {} "x").2.1 rfl⟩

/-- Claim C2: for members of the status enumeration,
`isValidStatusTransition a b` is `true` exactly when `a ≠ b`; when either
argument is outside the enumeration the result is `false`. -/
theorem statusTransition_iff_distinct (a b : JSValue) :
    (jsIncludes validStatuses a = true → jsIncludes validStatuses b = true →
        (isValidStatusTransition a b = true ↔ a ≠ b))
  ∧ ((jsIncludes validStatuses a = false ∨ jsIncludes validStatuses b = false) →
        isValidStatusTransition a b = false) := by
  constructor
  · intro ha hb
    cases a with
    | string sa =>
      cases b with
      | string sb =>
        have ha3 : sa = "open" ∨ sa = "in-progress" ∨ sa = "resolved" := by
          simpa [jsIncludes, validStatuses] using ha
        have hb3 : sb = "open" ∨ sb = "in-progress" ∨ sb = "resolved" := by
          simpa [jsIncludes, validStatuses] using hb
        rcases ha3 with rfl | rfl | rfl <;> rcases hb3 with rfl | rfl | rfl <;> decide
      | _ => simp [jsIncludes] at hb
    | _ => simp [jsIncludes] at ha
  · intro h
    rcases h with h | h <;> simp [isValidStatusTransition, h]

/-- Witness for C2 at concrete inputs. -/
theorem statusTransition_iff_distinct_witness :
    isValidStatusTransition (.string "open") (.string "resolved") = true
  ∧ isValidStatusTransition .null (.string "open") = false :=
  ⟨((statusTransition_iff_distinct (.string "open") (.string "resolved")).1
      (by decide) (by decide)).mpr (by decide),
   (statusTransition_iff_distinct .null (.string "open")).2 (Or.inl (by decide))⟩

/-- Claim C3: `validateBugData` reports one message per violated rule, in
the stable order title, description, reporter, status, priority, with each
rule a function of its own field only; `valid` is emptiness of the error
list; an absent (`undefined`) status or priority yields no message; and
the record with empty title, description `"x"` and reporter `"y"` yields
`valid = false` with exactly the title-required message. -/
theorem validateRecord_rulewise (d : BugData) :
    ((validateBugData d).errors
      = (titleCheck d.title).toList ++ (descriptionCheck d.description).toList
        ++ (reporterCheck d.reporter).toList ++ (statusCheck d.status).toList
        ++ (priorityCheck d.priority).toList)
  ∧ ((validateBugData d).valid = true ↔ (validateBugData d).errors = [])
  ∧ (d.status = .undefined → statusCheck d.status = none)
  ∧ (d.priority = .undefined → priorityCheck d.priority = none)
  ∧ validateBugData { title := .string "", description := .string "x", reporter := .string "y" }
      = { valid := false, errors := ["Title is required and must be a non-empty string"] } := by
  refine ⟨validateBugData_errors_decomp d, ?_, ?_, ?_, by decide⟩
  · rw [validateBugData_valid_eq]
    simp [List.isEmpty_iff]
  · intro h; rw [h]; rfl
  · intro h; rw [h]; rfl

/-- Witness for C3 at a concrete record with absent status/priority. -/
theorem validateRecord_rulewise_witness :
    statusCheck ({} : BugData).status = none ∧ priorityCheck ({} : BugData).priority = none :=
  ⟨(validateRecord_rulewise {}).2.2.1 rfl, (validateRecord_rulewise {}).2.2.2.1 rfl⟩

set_option maxRecDepth 10000 in
/-- Claim C4, counterexample: a title of raw length 201 whose trimmed form
is non-empty and only 196 characters long is rejected with the
200-character message, contradicting the claim that a title of at most 200
characters *after trimming* passes the title rule. -/
theorem titleLimit_untrimmed_counterexample :
    (jsTrim paddedTitle).length ≤ 200 ∧ jsTrim paddedTitle ≠ ""
  ∧ validateBugData
      { title := .string paddedTitle, description := .string "x", reporter := .string "y" }
      = ⟨false, ["Title cannot exceed 200 characters"]⟩ := by decide

/-- Claim C4, amended: the 200-character limit is checked on the raw,
untrimmed title.  For a title with non-empty trim: if its raw length is at
most 200 no title message is reported, and if its raw length exceeds 200
the 200-character message is reported and validation fails. -/
theorem titleLimit_untrimmed_amended (s : String) (d : BugData)
    (hd : d.title = .string s) (hne : jsTrim s ≠ "") :
    (s.length ≤ 200 →
        "Title is required and must be a non-empty string" ∉ (validateBugData d).errors
      ∧ "Title cannot exceed 200 characters" ∉ (validateBugData d).errors)
  ∧ (s.length > 200 →
        "Title cannot exceed 200 characters" ∈ (validateBugData d).errors
      ∧ (validateBugData d).valid = false) := by
  have hs0 : s ≠ "" := by
    intro h; subst h; exact hne rfl
  have htrimlen : (jsTrim s).length ≠ 0 := by
    intro h
    apply (string_ne_empty_iff (jsTrim s)).mp hne
    have hlz : (jsTrim s).data.length = 0 := h
    exact List.length_eq_zero.mp hlz
  constructor
  · intro hlen
    have htc : titleCheck d.title = none := by
      rw [hd]
      unfold titleCheck
      rw [if_neg, if_neg]
      · simpa [jsStr] using Nat.not_lt.mpr hlen
      · simp [jsTruthy, jsIsString, jsStr, hs0, htrimlen]
    constructor
    · intro hm
      have hmm := (titleMsg_mem_iff d _ (Or.inl rfl)).mp hm
      rw [htc] at hmm; cases hmm
    · intro hm
      have hmm := (titleMsg_mem_iff d _ (Or.inr rfl)).mp hm
      rw [htc] at hmm; cases hmm
  · intro hlen
    have htc : titleCheck d.title = some "Title cannot exceed 200 characters" := by
      rw [hd]
      unfold titleCheck
      rw [if_neg, if_pos]
      · simpa [jsStr] using hlen
      · simp [jsTruthy, jsIsString, jsStr, hs0, htrimlen]
    have hmem : "Title cannot exceed 200 characters" ∈ (validateBugData d).errors :=
      (titleMsg_mem_iff d _ (Or.inr rfl)).mpr htc
    refine ⟨hmem, ?_⟩
    rw [validateBugData_valid_eq]
    rcases h : (validateBugData d).errors with _ | ⟨x, xs⟩
    · rw [h] at hmem; cases hmem
    · simp

set_option maxRecDepth 10000 in
/-- Witness for C4's amended theorem at concrete titles of length 3
and 201. -/
theorem titleLimit_untrimmed_amended_witness :
    "Title cannot exceed 200 characters" ∉ (validateBugData shortTitleData).errors
  ∧ "Title cannot exceed 200 characters" ∈ (validateBugData longTitleData).errors :=
  ⟨((titleLimit_untrimmed_amended "abc" shortTitleData rfl (by decide)).1 (by decide)).2,
   ((titleLimit_untrimmed_amended longTitle longTitleData rfl (by decide)).2 (by decide)).1⟩

/-- Claim C5, counterexample: `validateBugData` applied to `null` throws a
`TypeError` (reading `.title` of `null`), contradicting the claim that it
never throws for every input including `null`. -/
theorem validateRecord_null_throws :
    jsValidateBugData (.value .null)
      = .error "TypeError: Cannot read properties of null (reading 'title')" := rfl

/-- Claim C5, amended: `isValidStatusTransition` and `getPriorityWeight`
are total and never throw for any input, returning `false` outside the
status enumeration and `0` outside the priority enumeration;
`validateBugData` never throws for any input other than `null` and
`undefined`, and whenever its result is invalid the error list is
non-empty. -/
theorem validation_total_except_null :
    (∀ a b : JSValue, jsIsValidStatusTransition a b = .ok (isValidStatusTransition a b))
  ∧ (∀ p : JSValue, jsGetPriorityWeight p = .ok (getPriorityWeight p))
  ∧ (∀ a b : JSValue,
      jsIncludes validStatuses a = false ∨ jsIncludes validStatuses b = false →
        isValidStatusTransition a b = false)
  ∧ (∀ p : JSValue, jsIncludes validPriorities p = false → getPriorityWeight p = 0)
  ∧ (∀ arg : JsArg, arg ≠ .value .null → arg ≠ .value .undefined →
      ∃ r, jsValidateBugData arg = .ok r ∧ (r.valid = false → r.errors ≠ [])) := by
  refine ⟨fun a b => rfl, fun p => rfl, ?_, ?_, ?_⟩
  · intro a b h
    rcases h with h | h <;> simp [isValidStatusTransition, h]
  · intro p hp
    cases p with
    | string s =>
      have h0 : validPriorities.contains s = false := by simpa [jsIncludes] using hp
      simp [getPriorityWeight, jsPropertyKey, priorityTable_none_of_not_contains s h0]
    | number k => simp [getPriorityWeight, jsPropertyKey, priorityWeightTable_intKey k]
    | null => decide
    | undefined => decide
    | boolean b => cases b <;> decide
    | object => decide
  · intro arg h1 h2
    have key : ∀ d : BugData,
        (validateBugData d).valid = false → (validateBugData d).errors ≠ [] := by
      intro d hv he
      rw [validateBugData_valid_eq, he] at hv
      simp at hv
    cases arg with
    | obj d => exact ⟨validateBugData d, rfl, key d⟩
    | value v =>
      cases v with
      | null => exact absurd rfl h1
      | undefined => exact absurd rfl h2
      | boolean b => exact ⟨validateBugData {}, rfl, key _⟩
      | number n => exact ⟨validateBugData {}, rfl, key _⟩
      | string s => exact ⟨validateBugData {}, rfl, key _⟩
      | object => exact ⟨validateBugData {}, rfl, key _⟩

/-- Witness for C5's amended theorem at concrete inputs. -/
theorem validation_total_except_null_witness :
    getPriorityWeight (JSValue.string "banana") = 0
  ∧ isValidStatusTransition (.string "open") .null = false
  ∧ ∃ r, jsValidateBugData (.obj {}) = .ok r ∧ (r.valid = false → r.errors ≠ []) :=
  ⟨validation_total_except_null.2.2.2.1 _ (by decide),
   validation_total_except_null.2.2.1 (.string "open") .null (Or.inr (by decide)),
   validation_total_except_null.2.2.2.2 (.obj {}) (by decide) (by decide)⟩

/-- Claim C6: a read-by-id or update-by-id with a malformed identifier
(one failing the `ObjectId` cast) yields the 404 not-found outcome — the
same response, with the same error text, as an adapter miss on a
well-formed identifier — and that text is never the raw driver cast
message. -/
theorem malformed_id_normalized_to_notFound (store : List Bug) (id : String)
    (applyUpd : Bug → Except (List String) Bug) (h : isValidObjectId id = false) :
    getBug store id = bugNotFoundResponse
  ∧ updateBug store id applyUpd = bugNotFoundResponse
  ∧ (∀ vid, isValidObjectId vid = true → store.find? (fun b => b.id == vid) = none →
      getBug store vid = bugNotFoundResponse ∧ updateBug store vid applyUpd = bugNotFoundResponse)
  ∧ bugNotFoundResponse.error ≠ some (castErrorMessage id)
  ∧ bugNotFoundResponse.status = 404 := by
  refine ⟨?_, ?_, ?_, bugNotFound_ne_cast id, rfl⟩
  · simp [getBug, findById, h]
  · simp [updateBug, findByIdAndUpdate, h]
  · intro vid hv hm
    constructor
    · simp [getBug, findById, hv, hm]
    · simp [updateBug, findByIdAndUpdate, hv, hm]

/-- Witness for C6 at a concrete malformed identifier. -/
theorem malformed_id_normalized_to_notFound_witness :
    getBug [] "not-an-objectid" = bugNotFoundResponse
  ∧ updateBug [] "not-an-objectid" Except.ok = bugNotFoundResponse :=
  ⟨(malformed_id_normalized_to_notFound [] "not-an-objectid" Except.ok (by decide)).1,
   (malformed_id_normalized_to_notFound [] "not-an-objectid" Except.ok (by decide)).2.1⟩

/-- Claim C7: the create-success updater inserts the new record only when
no record with the same identifier is present, leaves the collection
unchanged when one is, and hence an identical create success applied twice
starting from a collection without that identifier leaves exactly one
record with it. -/
theorem createSuccess_insert_idempotent (nb : Bug) (l : List Bug) :
    ((∃ b ∈ l, b.id = nb.id) → addBugToState nb l = l)
  ∧ ((¬ ∃ b ∈ l, b.id = nb.id) → addBugToState nb l = nb :: l)
  ∧ (countById l nb.id = 0 → countById (addBugToState nb (addBugToState nb l)) nb.id = 1) := by
  have hfind : ∀ l' : List Bug, (∃ b ∈ l', b.id = nb.id) ↔
      (l'.find? (fun b => b.id == nb.id)).isSome := by
    intro l'
    rw [List.find?_isSome]
    constructor
    · rintro ⟨b, hb, he⟩; exact ⟨b, hb, by simp [he]⟩
    · rintro ⟨b, hb, he⟩; exact ⟨b, hb, by simpa using he⟩
  constructor
  · intro h
    have hs := (hfind l).mp h
    unfold addBugToState
    cases hf : l.find? (fun b => b.id == nb.id) with
    | none => rw [hf] at hs; cases hs
    | some b => rfl
  constructor
  · intro h
    have hn : ¬ (l.find? (fun b => b.id == nb.id)).isSome := fun hs => h ((hfind l).mpr hs)
    unfold addBugToState
    cases hf : l.find? (fun b => b.id == nb.id) with
    | none => rfl
    | some b => rw [hf] at hn; simp at hn
  · intro h0
    have hnone : ¬ ∃ b ∈ l, b.id = nb.id := by
      rintro ⟨b, hb, he⟩
      have hmem : b ∈ l.filter (fun b => b.id == nb.id) := by
        rw [List.mem_filter]; exact ⟨hb, by simp [he]⟩
      have hlen : (l.filter (fun b => b.id == nb.id)).length ≠ 0 := by
        intro hl
        rw [List.length_eq_zero] at hl
        rw [hl] at hmem
        cases hmem
      exact hlen h0
    have h1 : addBugToState nb l = nb :: l := by
      have hn : ¬ (l.find? (fun b => b.id == nb.id)).isSome :=
        fun hs => hnone ((hfind l).mpr hs)
      unfold addBugToState
      cases hf : l.find? (fun b => b.id == nb.id) with
      | none => rfl
      | some b => rw [hf] at hn; simp at hn
    have h2 : addBugToState nb (nb :: l) = nb :: l := by
      unfold addBugToState
      have hcons : (nb :: l).find? (fun b => b.id == nb.id) = some nb := by
        rw [List.find?_cons_of_pos _ (by simp)]
      rw [hcons]
    rw [h1, h2]
    unfold countById
    rw [List.filter_cons_of_pos (by simp)]
    unfold countById at h0
    simp [h0]

/-- Witness for C7 at concrete records. -/
theorem createSuccess_insert_idempotent_witness :
    addBugToState lowBug [lowBug] = [lowBug]
  ∧ countById (addBugToState lowBug (addBugToState lowBug [])) lowBug.id = 1 :=
  ⟨(createSuccess_insert_idempotent lowBug [lowBug]).1 ⟨lowBug, by simp, rfl⟩,
   (createSuccess_insert_idempotent lowBug []).2.2 (by decide)⟩

/-- Claim C8, evaluation at the failing input: with a `low` and a
`critical` record and the by-priority-descending sort directive, the list
endpoint returns the `low` record (weight 1) before the `critical` record
(weight 4) — MongoDB sorts the `priority` *string* descending
lexicographically — so the output is not ordered by non-increasing
priority weight. -/
theorem prioritySort_lexicographic_eval :
    (getBugs [lowBug, criticalBug] none none (some "priority")).data = [lowBug, criticalBug]
  ∧ weightNonIncreasing (getBugs [lowBug, criticalBug] none none (some "priority")).data = false
  ∧ getPriorityWeight (.string lowBug.priority) = 1
  ∧ getPriorityWeight (.string criticalBug.priority) = 4 := by decide

/-- Claim C9: a commit carrying one `setFilters` replaces the filters and
issues exactly one reload with them; a commit carrying two `setFilters`
issued before any reload resolves issues exactly one reload, with the
latest filters; a reload completion (success or failure) issues no reload
and leaves the filters untouched. -/
theorem setFilters_single_reload (s : ProviderState) (f f1 f2 : Filters)
    (data : List Bug) (msg : String) :
    commit [.setFilters f] s = ({ s with filters := f, filtersVer := s.filtersVer + 1 }, [f])
  ∧ commit [.setFilters f1, .setFilters f2] s
      = ({ s with filters := f2, filtersVer := s.filtersVer + 2 }, [f2])
  ∧ commit [.reloadSuccess data] s
      = ({ s with bugs := data, loading := false, error := none }, [])
  ∧ commit [.reloadFailure msg] s = ({ s with loading := false, error := some msg }, []) := by
  refine ⟨?_, ?_, ?_, ?_⟩ <;> simp [commit, applyStateUpdate]
  omega

/-- Claim C10: for every pair of inputs, `isValidStatusTransition c n`
returns `true` exactly when `n` is a member of the list returned by
`getValidNextStatuses c`. -/
theorem transition_agrees_with_nextStatuses (c n : JSValue) :
    isValidStatusTransition c n = jsIncludes (getValidNextStatuses c) n := by
  cases c with
  | string s =>
    by_cases hs : validStatuses.contains s = true
    · have hs3 : s = "open" ∨ s = "in-progress" ∨ s = "resolved" := by
        simpa [validStatuses] using hs
      rcases hs3 with rfl | rfl | rfl <;>
      · cases n with
        | string t =>
          by_cases ht : validStatuses.contains t = true
          · have ht3 : t = "open" ∨ t = "in-progress" ∨ t = "resolved" := by
              simpa [validStatuses] using ht
            rcases ht3 with rfl | rfl | rfl <;> decide
          · have ht' : t ≠ "open" ∧ t ≠ "in-progress" ∧ t ≠ "resolved" := by
              simpa [validStatuses] using ht
            simp [isValidStatusTransition, jsIncludes, getValidNextStatuses, jsPropertyKey,
              statusTransitionTable, validStatuses, ht'.1, ht'.2.1, ht'.2.2]
        | _ =>
          simp [isValidStatusTransition, jsIncludes, getValidNextStatuses, jsPropertyKey,
            statusTransitionTable]
    · have hs0 : validStatuses.contains s = false := by simpa using hs
      have htab := statusTable_none_of_not_contains s hs0
      cases n <;>
        simp [isValidStatusTransition, jsIncludes, getValidNextStatuses, jsPropertyKey, hs0, htab]
  | number k =>
    have htab := statusTransitionTable_intKey k
    cases n <;>
      simp [isValidStatusTransition, jsIncludes, getValidNextStatuses, jsPropertyKey, htab]
  | null =>
    cases n <;>
      simp [isValidStatusTransition, jsIncludes, getValidNextStatuses, jsPropertyKey,
        statusTransitionTable]
  | undefined =>
    cases n <;>
      simp [isValidStatusTransition, jsIncludes, getValidNextStatuses, jsPropertyKey,
        statusTransitionTable]
  | boolean b =>
    cases b <;> cases n <;>
      simp [isValidStatusTransition, jsIncludes, getValidNextStatuses, jsPropertyKey,
        statusTransitionTable]
  | object =>
    cases n <;>
      simp [isValidStatusTransition, jsIncludes, getValidNextStatuses, jsPropertyKey,
        statusTransitionTable]
